import Mathlib

/-!
Verification development for the autocan-guard in-vehicle intrusion
detection/prevention core.

The Python source is embedded shallowly: Python floats are modelled as
exact rationals (`ℚ`), Python ints as `ℕ`/`ℤ` (all reachable values are
non-negative), mutable objects as explicit state records threaded through
the functions, and HMAC-SHA256 as an abstract function parameter
`hmacF : String → String → String` (key, message ↦ hex digest).
Logging, printing and storage side effects are elided: they do not feed
back into any value the properties below mention.
-/

namespace AutocanGuard

/-! ### Signal codec

`can_generator.py` encodes signal values with Python `int(...)` (truncation
toward zero) on the scaled value; `can_listener.py` decodes the 16-bit
big-endian word `raw = int.from_bytes(data[:2], 'big')`.  The byte
round-trip `int.from_bytes((val).to_bytes(2,'big')[:2], 'big') = val` is the
identity for `0 ≤ val < 65536`, so the payload word is modelled directly as
the integer `val`. -/

/-- Python `int()` applied to a real value: truncation toward zero. -/
def pytrunc (q : ℚ) : ℤ := if 0 ≤ q then ⌊q⌋ else ⌈q⌉

/-- `can_generator.CANMessageGenerator._send_steering`:
`val = int((self.target_steering + 45) * 10)`. -/
def encode_steering (angle : ℚ) : ℤ := pytrunc ((angle + 45) * 10)

/-- `can_generator.CANMessageGenerator._send_speed`:
`val = int(self.target_speed * 10)`. -/
def encode_speed (speed : ℚ) : ℤ := pytrunc (speed * 10)

/-- `can_generator.CANMessageGenerator._send_brake`:
`val = int(self.target_brake * 10)`. -/
def encode_brake (brake : ℚ) : ℤ := pytrunc (brake * 10)

/-- `can_listener.CANListener._process_message`, `can_id == 0x120` branch:
`angle = int.from_bytes(data[:2], 'big') / 10.0 - 45.0`. -/
def decode_steering (raw : ℤ) : ℚ := (raw : ℚ) / 10 - 45

/-- `can_listener.CANListener._process_message`, `can_id == 0x130` branch:
`speed = int.from_bytes(data[:2], 'big') / 10.0`. -/
def decode_speed (raw : ℤ) : ℚ := (raw : ℚ) / 10

/-- `can_listener.CANListener._process_message`, `can_id == 0x140` branch:
`brake_pressure = int.from_bytes(data[:2], 'big') / 10.0`. -/
def decode_brake (raw : ℤ) : ℚ := (raw : ℚ) / 10

/-! ### IPS policy engine (`ips_engine.py`) -/

/-- The `mode` string of `ips_engine.IPSState`. -/
inductive IPSMode
  | off
  | soft_limit
  | safe_mode
  | critical
deriving DecidableEq

/-- `ips_engine.IPSState` (the `sustained_anomaly_start` field is never read
by any modelled method and is omitted). -/
structure IPSState where
  enabled : Bool := true
  mode : IPSMode := .off
  last_safe_speed : ℚ := 30
  last_safe_steering : ℚ := 0
  recovery_timer : ℚ := 0

/-- `speed_limit` entry of `IPSPolicyEngine._get_policy_limits` for the
non-OFF modes (the OFF entry is `None` and is only consumed behind the
early-return OFF branches of the sanitizers). -/
def speed_cap : IPSMode → ℚ
  | .off => 0
  | .soft_limit => 40
  | .safe_mode => 35
  | .critical => 25

/-- `steering_limit` entry of `IPSPolicyEngine._get_policy_limits` for the
non-OFF modes. -/
def steering_cap : IPSMode → ℚ
  | .off => 0
  | .soft_limit => 15
  | .safe_mode => 10
  | .critical => 5

/-- `ips_engine.IPSPolicyEngine.update_policy`.  Returns the updated state;
the returned policy-limits dict is recomputable from the mode via
`speed_cap`/`steering_cap`. -/
def update_policy (s : IPSState) (trust_score : ℚ) (now : ℚ) : IPSState :=
  if s.enabled = false then s
  else if trust_score < 0.8 then
    { s with
      mode := if 0.7 ≤ trust_score then .soft_limit
              else if 0.5 ≤ trust_score then .safe_mode
              else .critical,
      recovery_timer := 0 }
  else if s.mode ≠ .off then
    if s.recovery_timer = 0 then { s with recovery_timer := now }
    else if 5 < now - s.recovery_timer then { s with mode := .off, recovery_timer := 0 }
    else s
  else s

/-- `ips_engine.IPSPolicyEngine.sanitize_speed`.  Returns the sanitized
speed together with the updated state. -/
def sanitize_speed (s : IPSState) (requested_speed current_speed : ℚ) : ℚ × IPSState :=
  if s.mode = .off then
    (requested_speed, { s with last_safe_speed := requested_speed })
  else
    let safe_speed := min (speed_cap s.mode) (current_speed + 2)
    (max safe_speed 10, s)

/-- `ips_engine.IPSPolicyEngine.sanitize_steering`.  Returns the sanitized
steering together with the updated state.  Note that in the non-OFF branch
the source computes `safe_steering = self.state.last_safe_steering * 0.9`
but never writes the decayed value back into `self.state`. -/
def sanitize_steering (s : IPSState) (requested_steering : ℚ) : ℚ × IPSState :=
  if s.mode = .off then
    (requested_steering, { s with last_safe_steering := requested_steering })
  else
    let safe_steering := s.last_safe_steering * 0.9
    (max (-(steering_cap s.mode)) (min (steering_cap s.mode) safe_steering), s)

/-- `List.foldl` of `update_policy` over a run of `(trust_score, now)`
updates, in call order. -/
def run_policy (s : IPSState) (updates : List (ℚ × ℚ)) : IPSState :=
  updates.foldl (fun t u => update_policy t u.1 u.2) s

/-! ### Trust engine (`trust_engine.py`) -/

/-- The state of `trust_engine.TrustEngine` (storage handle and timestamps
elided: they never feed back into the trust value). -/
structure TrustEngine where
  alpha : ℚ
  beta : ℚ
  gamma : ℚ
  trust_score : ℚ
  min_trust : ℚ
  max_trust : ℚ
  recovery_rate : ℚ
  ml_enabled : Bool

/-- `trust_engine.TrustEngine.update_trust`.  Returns the updated engine;
the Python method returns `self.trust_score` of the result. -/
def update_trust (e : TrustEngine) (anomaly_score auth_result temporal_score : ℚ) : TrustEngine :=
  let effective_anomaly_score := if e.ml_enabled then anomaly_score else 0
  let trust_delta :=
    - e.alpha * effective_anomaly_score
    - e.beta * (1 - auth_result)
    - e.gamma * (1 - temporal_score)
  let trust_delta :=
    if effective_anomaly_score < 0.1 then trust_delta + e.recovery_rate else trust_delta
  { e with trust_score := max e.min_trust (min e.max_trust (e.trust_score + trust_delta)) }

/-! ### Physics validator (`physics_validator.py`)

State threading mirrors the source: `validate_speed_physics` calls
`_update_history(speed, 0.0, timestamp)` (note the hard-coded steering
`0.0`), `validate_steering_physics` calls `_update_history` only when its
history is empty, and `validate_correlation` never updates state.  The
human-readable reason strings are elided (no property mentions them); each
validator returns `(is_valid, score)` and the updated state. -/

/-- The history fields of `physics_validator.PhysicsValidator` (deques of
`maxlen=10`) plus the scalar last-sample state. -/
structure PhysicsValidator where
  speed_history : List ℚ := []
  steering_history : List ℚ := []
  timestamp_history : List ℚ := []
  last_speed : ℚ := 0
  last_steering : ℚ := 0
  last_timestamp : ℚ := 0

/-- `collections.deque(maxlen=10).append`: drop from the front once the
length exceeds 10. -/
def dequeAppend10 (l : List ℚ) (x : ℚ) : List ℚ :=
  let l2 := l ++ [x]
  l2.drop (l2.length - 10)

/-- `physics_validator.PhysicsValidator._update_history`. -/
def pv_update_history (s : PhysicsValidator) (speed steering timestamp : ℚ) : PhysicsValidator :=
  { speed_history := dequeAppend10 s.speed_history speed
    steering_history := dequeAppend10 s.steering_history steering
    timestamp_history := dequeAppend10 s.timestamp_history timestamp
    last_speed := speed
    last_steering := steering
    last_timestamp := timestamp }

/-- `physics_validator.PhysicsValidator.validate_speed_physics` (the
constants `MAX_ACCELERATION = 4`, `MAX_DECELERATION = 9`,
`MAX_SPEED_DELTA_PER_CYCLE = 5` are inlined). -/
def validate_speed_physics (s : PhysicsValidator) (speed timestamp : ℚ) :
    (Bool × ℚ) × PhysicsValidator :=
  if s.speed_history = [] then
    ((true, 1), pv_update_history s speed 0 timestamp)
  else
    let dt := timestamp - s.last_timestamp
    if dt ≤ 0 then ((true, 1), s)
    else
      let speed_delta := speed - s.last_speed
      let acceleration := (speed_delta / 3.6) / dt
      let violation_score : ℚ := 0
      let violation_score :=
        if 4 < acceleration then min 1 (acceleration / 4 - 1) else violation_score
      let violation_score :=
        if acceleration < -9 then min 1 (|acceleration| / 9 - 1) else violation_score
      let violation_score :=
        if 5 < |speed_delta| ∧ dt < 0.2 then max violation_score 0.8 else violation_score
      ((violation_score < 0.5, 1 - violation_score), pv_update_history s speed 0 timestamp)

/-- `physics_validator.PhysicsValidator.validate_steering_physics`
(`MAX_STEERING_RATE = 30` inlined). -/
def validate_steering_physics (s : PhysicsValidator) (steering timestamp : ℚ) :
    (Bool × ℚ) × PhysicsValidator :=
  if s.steering_history = [] then
    ((true, 1), pv_update_history s 0 steering timestamp)
  else
    let dt := timestamp - s.last_timestamp
    if dt ≤ 0 then ((true, 1), s)
    else
      let steering_delta := |steering - s.last_steering|
      let steering_rate := steering_delta / dt
      let violation_score : ℚ :=
        if 30 < steering_rate then min 1 (steering_rate / 30 - 1) else 0
      ((violation_score < 0.5, 1 - violation_score), s)

/-- `physics_validator.PhysicsValidator.validate_correlation` (read-only on
the validator state). -/
def validate_correlation (s : PhysicsValidator) (speed steering brake : ℚ) : Bool × ℚ :=
  let violation_score : ℚ := 0
  let violation_score :=
    if 2 ≤ s.speed_history.length ∧ s.last_speed + 1 < speed ∧ 10 < brake then
      max violation_score 0.7
    else violation_score
  let violation_score :=
    if 80 < speed ∧ |steering| < 1 ∧ 8 < (s.steering_history.filter (fun x => |x| < 1)).length then
      max violation_score 0.3
    else violation_score
  let violation_score :=
    if 60 < speed ∧ 25 < |steering| then max violation_score 0.6 else violation_score
  (violation_score < 0.5, 1 - violation_score)

/-- The result dict of `PhysicsValidator.get_physics_score` (reason strings
elided). -/
structure PhysicsScoreResult where
  physics_score : ℚ
  speed_valid : Bool
  steering_valid : Bool
  correlation_valid : Bool
  overall_valid : Bool

/-- `physics_validator.PhysicsValidator.get_physics_score`: runs the three
sub-validators in source order (threading the state mutations) and combines
`0.5 * speed + 0.3 * steering + 0.2 * correlation`. -/
def get_physics_score (s : PhysicsValidator) (speed steering brake timestamp : ℚ) :
    PhysicsScoreResult × PhysicsValidator :=
  let r1 := validate_speed_physics s speed timestamp
  let r2 := validate_steering_physics r1.2 steering timestamp
  let r3 := validate_correlation r2.2 speed steering brake
  let combined_score := 0.5 * r1.1.2 + 0.3 * r2.1.2 + 0.2 * r3.2
  (⟨combined_score, r1.1.1, r2.1.1, r3.1,
    r1.1.1 && r2.1.1 && r3.1⟩, r2.2)

/-! ### Listener score fusion (`can_listener.CANListener._process_message`)

The final per-frame anomaly score as a function of the detection-layer
scores and the branch conditions.  `total_anomaly_score` is initialised to
`0.0`; the UI-controller branch leaves it `0.0`, the detection branch runs
only when `not self.training_mode`, and the physics floor
`max(total, 0.8)` is applied inside the detection branch only. -/

/-- The value of `total_anomaly_score` at the end of the scoring section of
`CANListener._process_message`.  `is_ui_controller` is the source condition
`device_id and "ui-controller" in device_id`; `control_anomaly_score` is
the threshold-weighted sum before the source clamps it with `min(1.0, ·)`
(the clamp is applied here). -/
def fused_anomaly_score (training_mode is_ui_controller : Bool)
    (ml_anomaly_score control_anomaly_score context_score physics_score
      temporal_anomaly_score : ℚ) (overall_valid : Bool) : ℚ :=
  if is_ui_controller then 0
  else if training_mode then 0
  else
    let control := min 1 control_anomaly_score
    let ml_score := 0.4 * ml_anomaly_score + 0.4 * control + 0.2 * context_score
    let temporal_score := 1 - temporal_anomaly_score
    let total := 1 - (0.6 * (1 - ml_score) + 0.25 * physics_score + 0.15 * temporal_score)
    if overall_valid = false then max total 0.8 else total

/-! ### Device key table (`src/security/keys.py`) -/

/-- `security.keys.DEVICE_KEYS`. -/
def DEVICE_KEYS : List (String × String) :=
  [("vehicleA-steering-ecu", "steering_key_v1_secret_2024"),
   ("vehicleA-speed-ecu", "speed_key_v1_secret_2024"),
   ("vehicleA-brake-ecu", "brake_key_v1_secret_2024"),
   ("vehicleA-ui-controller", "ui_key_v1_secret_2024"),
   ("vehicleA-v2v", "v2v_key_v1_secret_2024"),
   ("vehicleB-v2v", "v2v_key_v1_secret_2024"),
   ("attacker-unknown", "fake_key_attempt_2024")]

/-- `security.keys.get_device_key` (the `key_version` argument is unused by
the source body). -/
def get_device_key (device_id : String) : Option String :=
  DEVICE_KEYS.lookup device_id

/-- `security.keys.TIMESTAMP_WINDOW_MS`. -/
def TIMESTAMP_WINDOW_MS : ℕ := 5000

/-! ### Signed envelope and HMAC message data

The signature input string is
`f"{device_id}:{timestamp}:{sequence}:{can_id}:{payload}"`; Python `str()`
of a non-negative int is its decimal rendering, i.e. `Nat.repr`. -/

/-- The `secure_msg` dict produced by the signer and consumed by the
verifier.  `payload` is the lowercase-hex payload string. -/
structure Envelope where
  device_id : String
  timestamp : ℕ
  sequence : ℕ
  key_version : ℕ
  can_id : ℕ
  payload : String
  signature : String

/-- The HMAC input `f"{device_id}:{timestamp}:{sequence}:{can_id}:{payload}"`
built in both `signer.sign_message` and `verifier.verify_message`. -/
def message_data (device_id : String) (timestamp sequence can_id : ℕ) (payload : String) :
    String :=
  device_id ++ ":" ++ Nat.repr timestamp ++ ":" ++ Nat.repr sequence ++ ":" ++
    Nat.repr can_id ++ ":" ++ payload

/-! ### Signer (`src/security/signer.py`) -/

/-- The state of `security.signer.MessageSigner` (the sequence-persistence
file is modelled by the `sequence` field itself; `_save_sequence` has no
other observable effect). -/
structure MessageSigner where
  device_id : String
  key : String
  sequence : ℕ

/-- `MessageSigner.__init__`: raises `ValueError` when no key is configured,
modelled as `none`.  `seq0` is the sequence loaded from the persistence file
(`1` when the file is missing). -/
def mkMessageSigner (device_id : String) (seq0 : ℕ) : Option MessageSigner :=
  match get_device_key device_id with
  | none => none
  | some key => if key = "" then none else some ⟨device_id, key, seq0⟩

/-- `security.signer.MessageSigner.sign_message` for a bytes payload whose
lowercase hex rendering is `payload` (`payload.hex()`); `now` is
`int(time.time() * 1000)`.  Returns the updated signer and the signed
envelope (`CURRENT_KEY_VERSION = 1`). -/
def sign_message (hmacF : String → String → String) (now : ℕ) (s : MessageSigner)
    (can_id : ℕ) (payload : String) : MessageSigner × Envelope :=
  let sequence := s.sequence + 1
  let signature := hmacF s.key (message_data s.device_id now sequence can_id payload)
  (⟨s.device_id, s.key, sequence⟩,
   ⟨s.device_id, now, sequence, 1, can_id, payload, signature⟩)

/-! ### Verifier (`src/security/verifier.py`) -/

/-- The state of `security.verifier.MessageVerifier`:
`last_sequences = defaultdict(int)` and `message_history = defaultdict(list)`
are modelled as total functions with the default values. -/
structure VerifierState where
  last_sequences : String → ℕ
  message_history : String → List ℕ

/-- `MessageVerifier.__init__`. -/
def initVerifier : VerifierState := ⟨fun _ => 0, fun _ => []⟩

/-- The signature check and accept-time bookkeeping at the end of
`MessageVerifier.verify_message` (steps 4 and 5 of the source), shared by
the direct path and the restart re-anchoring path. -/
def verify_signature_and_accept (hmacF : String → String → String) (now : ℕ)
    (st : VerifierState) (key : String) (e : Envelope) : Bool × String × VerifierState :=
  let expected_signature := hmacF key
    (message_data e.device_id e.timestamp e.sequence e.can_id e.payload)
  if e.signature ≠ expected_signature then
    (false, "Invalid HMAC signature", st)
  else
    let cutoff := (now : ℤ) - TIMESTAMP_WINDOW_MS
    (true, "Valid message",
     ⟨fun d => if d = e.device_id then e.sequence else st.last_sequences d,
      fun d => if d = e.device_id then
          ((st.message_history e.device_id) ++ [e.timestamp]).filter
            (fun ts => cutoff < (ts : ℤ))
        else st.message_history d⟩)

/-- `security.verifier.MessageVerifier.verify_message`; `now` is
`int(time.time() * 1000)`.  Python truthiness in
`not all([device_id, timestamp, sequence, can_id, payload, signature])`
means empty strings and zero integers count as missing.  Returns
`(is_valid, reason, updated verifier state)`. -/
def verify_message (hmacF : String → String → String) (now : ℕ) (st : VerifierState)
    (e : Envelope) : Bool × String × VerifierState :=
  if e.device_id = "" ∨ e.timestamp = 0 ∨ e.sequence = 0 ∨ e.can_id = 0 ∨
      e.payload = "" ∨ e.signature = "" then
    (false, "Missing required fields", st)
  else
    match get_device_key e.device_id with
    | none => (false, "Unknown device: " ++ e.device_id, st)
    | some key =>
      if key = "" then (false, "Unknown device: " ++ e.device_id, st)
      else if (TIMESTAMP_WINDOW_MS : ℤ) < |(now : ℤ) - (e.timestamp : ℤ)| then
        (false, "Message too old: " ++ toString ((now : ℤ) - (e.timestamp : ℤ)) ++ "ms", st)
      else
        let last_seq := st.last_sequences e.device_id
        if e.sequence ≤ last_seq then
          if e.sequence + 100 < last_seq then
            -- restart re-anchoring: `self.last_sequences[device_id] = sequence`
            let st2 : VerifierState :=
              ⟨fun d => if d = e.device_id then e.sequence else st.last_sequences d,
               st.message_history⟩
            verify_signature_and_accept hmacF now st2 key e
          else
            (false, "Sequence replay: " ++ Nat.repr e.sequence ++ " <= " ++ Nat.repr last_seq,
             st)
        else
          verify_signature_and_accept hmacF now st key e

/-! ### Injectivity of the decimal rendering inside the HMAC input

`str(int)` in the f-string is `Nat.repr`; its injectivity is established by
decoding the produced digit string back to the number. -/

/-- Numeric value of a decimal digit character. -/
def charVal (c : Char) : ℕ := c.toNat - 48

/-- Decimal value of a big-endian digit string. -/
def charsVal (l : List Char) : ℕ := l.foldl (fun a c => 10 * a + charVal c) 0

theorem charsVal_append_singleton (l : List Char) (c : Char) :
    charsVal (l ++ [c]) = 10 * charsVal l + charVal c := by
  simp [charsVal, List.foldl_append]

theorem charVal_digitChar (d : ℕ) (hd : d < 10) : charVal (Nat.digitChar d) = d := by
  interval_cases d <;> rfl

theorem toDigitsCore_append (f n : ℕ) (ds : List Char) :
    Nat.toDigitsCore 10 f n ds = Nat.toDigitsCore 10 f n [] ++ ds := by
  induction f generalizing n ds with
  | zero => simp [Nat.toDigitsCore]
  | succ f ih =>
    simp only [Nat.toDigitsCore]
    by_cases h : n / 10 = 0
    · simp [h]
    · rw [if_neg h, if_neg h, ih (n / 10) [Nat.digitChar (n % 10)],
        ih (n / 10) (Nat.digitChar (n % 10) :: ds), List.append_assoc]
      rfl

theorem charsVal_toDigitsCore (n : ℕ) :
    ∀ f, n < f → charsVal (Nat.toDigitsCore 10 f n []) = n := by
  induction n using Nat.strong_induction_on with
  | _ n ih =>
    intro f hf
    cases f with
    | zero => omega
    | succ f =>
      simp only [Nat.toDigitsCore]
      by_cases h : n / 10 = 0
      · have hn : n < 10 := by omega
        have hmod : n % 10 = n := Nat.mod_eq_of_lt hn
        simp [h, charsVal, hmod, charVal_digitChar n hn]
      · rw [if_neg h, toDigitsCore_append, charsVal_append_singleton,
          ih (n / 10) (by omega) f (by omega),
          charVal_digitChar _ (Nat.mod_lt n (by norm_num))]
        omega

theorem natRepr_inj {m n : ℕ} (h : Nat.repr m = Nat.repr n) : m = n := by
  have hm : charsVal (Nat.toDigits 10 m) = m :=
    charsVal_toDigitsCore m (m + 1) (Nat.lt_succ_self m)
  have hn : charsVal (Nat.toDigits 10 n) = n :=
    charsVal_toDigitsCore n (n + 1) (Nat.lt_succ_self n)
  have h2 : Nat.toDigits 10 m = Nat.toDigits 10 n :=
    List.asString_inj.mp (by simpa [Nat.repr] using h)
  rw [← hm, ← hn, h2]

/-! ### Cancellation for colon-joined message strings -/

theorem string_append_cancel_left {a b c : String} (h : a ++ b = a ++ c) : b = c := by
  have hd : a.data ++ b.data = a.data ++ c.data := by
    simpa [String.data_append] using congrArg String.data h
  exact String.toList_inj.mp (List.append_cancel_left hd)

theorem string_append_cancel_right {a b c : String} (h : a ++ c = b ++ c) : a = b := by
  have hd : a.data ++ c.data = b.data ++ c.data := by
    simpa [String.data_append] using congrArg String.data h
  exact String.toList_inj.mp (List.append_cancel_right hd)

theorem message_data_inj_payload {d : String} {t s c : ℕ} {p1 p2 : String}
    (h : message_data d t s c p1 = message_data d t s c p2) : p1 = p2 :=
  string_append_cancel_left h

theorem message_data_inj_device {d1 d2 : String} {t s c : ℕ} {p : String}
    (h : message_data d1 t s c p = message_data d2 t s c p) : d1 = d2 := by
  have hd := congrArg String.data h
  simp only [message_data, String.data_append, List.append_assoc] at hd
  exact String.toList_inj.mp (List.append_cancel_right hd)

theorem message_data_inj_timestamp {d : String} {t1 t2 s c : ℕ} {p : String}
    (h : message_data d t1 s c p = message_data d t2 s c p) : t1 = t2 := by
  have hd := congrArg String.data h
  simp only [message_data, String.data_append, List.append_assoc] at hd
  have h1 := List.append_cancel_left hd
  have h2 := List.append_cancel_left h1
  exact natRepr_inj (String.toList_inj.mp (List.append_cancel_right h2))

theorem message_data_inj_sequence {d : String} {t s1 s2 c : ℕ} {p : String}
    (h : message_data d t s1 c p = message_data d t s2 c p) : s1 = s2 := by
  have hd := congrArg String.data h
  simp only [message_data, String.data_append, List.append_assoc] at hd
  have h1 := List.append_cancel_left hd
  have h2 := List.append_cancel_left h1
  have h3 := List.append_cancel_left h2
  have h4 := List.append_cancel_left h3
  exact natRepr_inj (String.toList_inj.mp (List.append_cancel_right h4))

/-! ## Claim theorems -/

/-- Claim C4: a Trust Engine update with the default parameters
(α = 0.10, β = 0.20, γ = 0.05, ρ = 0.01) computes
`clamp(old − α·eff_anom − β·(1−auth) − γ·(1−temporal) + (eff_anom < 0.1 ? ρ : 0), 0, 1)`
where `eff_anom` is the anomaly score when ML is enabled and `0` otherwise,
and the resulting trust always lies in `[0, 1]`. -/
theorem c4_trust_update_formula (e : TrustEngine)
    (anomaly_score auth_result temporal_score : ℚ)
    (ha : e.alpha = 0.1) (hb : e.beta = 0.2) (hg : e.gamma = 0.05)
    (hr : e.recovery_rate = 0.01) (hmin : e.min_trust = 0) (hmax : e.max_trust = 1) :
    (update_trust e anomaly_score auth_result temporal_score).trust_score =
      max 0 (min 1 (e.trust_score
        - 0.1 * (if e.ml_enabled then anomaly_score else 0)
        - 0.2 * (1 - auth_result)
        - 0.05 * (1 - temporal_score)
        + (if (if e.ml_enabled then anomaly_score else 0) < 0.1 then 0.01 else 0))) ∧
    0 ≤ (update_trust e anomaly_score auth_result temporal_score).trust_score ∧
    (update_trust e anomaly_score auth_result temporal_score).trust_score ≤ 1 := by
  refine ⟨?_, ?_, ?_⟩
  · simp only [update_trust, ha, hb, hg, hr, hmin, hmax]
    split_ifs <;> (congr 1 <;> congr 1 <;> ring)
  · simp only [update_trust, hmin, hmax]
    exact le_max_left _ _
  · simp only [update_trust, hmin, hmax]
    exact max_le (by norm_num) (min_le_left _ _)

/-- A concrete trust engine with the source defaults, ML enabled and current
trust 0.9. -/
def sampleTrustEngine : TrustEngine := ⟨0.1, 0.2, 0.05, 0.9, 0, 1, 0.01, true⟩

theorem c4_witness :
    (update_trust sampleTrustEngine 0.5 1 1).trust_score =
      max 0 (min 1 (sampleTrustEngine.trust_score
        - 0.1 * (if sampleTrustEngine.ml_enabled then (0.5 : ℚ) else 0)
        - 0.2 * (1 - 1)
        - 0.05 * (1 - 1)
        + (if (if sampleTrustEngine.ml_enabled then (0.5 : ℚ) else 0) < 0.1
           then 0.01 else 0))) ∧
    0 ≤ (update_trust sampleTrustEngine 0.5 1 1).trust_score ∧
    (update_trust sampleTrustEngine 0.5 1 1).trust_score ≤ 1 :=
  c4_trust_update_formula sampleTrustEngine 0.5 1 1 rfl rfl rfl rfl rfl rfl

/-- Claim C8: in every non-OFF IPS mode the sanitized outputs are independent
of the requested values (same current speed and IPS state). -/
theorem c8_sanitize_ignores_request (s : IPSState) (r1 r2 current_speed : ℚ)
    (h : s.mode ≠ IPSMode.off) :
    (sanitize_speed s r1 current_speed).1 = (sanitize_speed s r2 current_speed).1 ∧
    (sanitize_steering s r1).1 = (sanitize_steering s r2).1 := by
  constructor <;> simp [sanitize_speed, sanitize_steering, h]

theorem c8_witness :
    (sanitize_speed ⟨true, .critical, 30, 0, 0⟩ 120 30).1 =
      (sanitize_speed ⟨true, .critical, 30, 0, 0⟩ 0 30).1 ∧
    (sanitize_steering ⟨true, .critical, 30, 0, 0⟩ 120).1 =
      (sanitize_steering ⟨true, .critical, 30, 0, 0⟩ 0).1 :=
  c8_sanitize_ignores_request ⟨true, .critical, 30, 0, 0⟩ 120 0 30 (by decide)

/-- Claim C6 (code-bug evaluation): in SOFT_LIMIT with stored last-safe
steering 10°, `sanitize_steering` returns 9 but does not write the decayed
value back, so a second consecutive call returns 9 again instead of the
geometrically decayed 10·0.9² = 8.1 the claim requires. -/
theorem c6_no_per_call_decay :
    (sanitize_steering ⟨true, .soft_limit, 30, 10, 0⟩ 20).1 = 9 ∧
    (sanitize_steering ⟨true, .soft_limit, 30, 10, 0⟩ 20).2.last_safe_steering = 10 ∧
    (sanitize_steering (sanitize_steering ⟨true, .soft_limit, 30, 10, 0⟩ 20).2 20).1 = 9 ∧
    (sanitize_steering (sanitize_steering ⟨true, .soft_limit, 30, 10, 0⟩ 20).2 20).1 ≠
      10 * (0.9 * 0.9) := by
  refine ⟨?_, ?_, ?_, ?_⟩ <;>
    norm_num +decide [sanitize_steering, steering_cap, min_def, max_def]

/-- Claim C1 (counterexample): a frame processed while the listener is still
in training mode keeps `total_anomaly_score = 0` even though the Physics
Validator reports `overall_valid = false`, so the final anomaly is below
0.8. -/
theorem c1_counterexample :
    (get_physics_score ⟨[30], [0], [1000], 30, 0, 1000⟩ 100 0 0 1001).1.overall_valid =
      false ∧
    fused_anomaly_score true false 0 0 0
      (get_physics_score ⟨[30], [0], [1000], 30, 0, 1000⟩ 100 0 0 1001).1.physics_score 0
      (get_physics_score ⟨[30], [0], [1000], 30, 0, 1000⟩ 100 0 0 1001).1.overall_valid <
      0.8 := by
  refine ⟨?_, ?_⟩ <;>
    norm_num +decide [fused_anomaly_score, get_physics_score, validate_speed_physics,
      validate_steering_physics, validate_correlation, pv_update_history, dequeAppend10,
      min_def, max_def, abs_of_nonneg, abs_of_nonpos]

/-- Claim C1 (amended): for frames scored in the detection phase (training
finished) from a non-UI-controller device, whenever the Physics Validator
reports `overall_valid = false` the fused anomaly score is at least 0.8,
regardless of the ML, control-energy, contextual and temporal layer
scores. -/
theorem c1_amended_physics_floor (pv : PhysicsValidator)
    (speed steering brake timestamp : ℚ)
    (ml_anomaly_score control_anomaly_score context_score temporal_anomaly_score : ℚ)
    (h : (get_physics_score pv speed steering brake timestamp).1.overall_valid = false) :
    0.8 ≤ fused_anomaly_score false false ml_anomaly_score control_anomaly_score
      context_score (get_physics_score pv speed steering brake timestamp).1.physics_score
      temporal_anomaly_score
      (get_physics_score pv speed steering brake timestamp).1.overall_valid := by
  rw [h]
  simp only [fused_anomaly_score, Bool.false_eq_true, if_false, if_pos rfl]
  exact le_max_right _ _

theorem c1_witness :
    (get_physics_score ⟨[30], [0], [1000], 30, 0, 1000⟩ 100 0 0 1001).1.overall_valid =
      false ∧
    0.8 ≤ fused_anomaly_score false false 0 0 0
      (get_physics_score ⟨[30], [0], [1000], 30, 0, 1000⟩ 100 0 0 1001).1.physics_score 0
      (get_physics_score ⟨[30], [0], [1000], 30, 0, 1000⟩ 100 0 0 1001).1.overall_valid :=
  ⟨by
    norm_num +decide [get_physics_score, validate_speed_physics, validate_steering_physics,
      validate_correlation, pv_update_history, dequeAppend10, min_def, max_def,
      abs_of_nonneg, abs_of_nonpos],
   c1_amended_physics_floor ⟨[30], [0], [1000], 30, 0, 1000⟩ 100 0 0 1001 0 0 0 0
     (by
      norm_num +decide [get_physics_score, validate_speed_physics, validate_steering_physics,
        validate_correlation, pv_update_history, dequeAppend10, min_def, max_def,
        abs_of_nonneg, abs_of_nonpos])⟩

/-- Claim C7 (counterexample): the encoders truncate with Python `int()`
instead of rounding, so steering 0.07° decodes back to 0.0°, an error of
0.07 > 0.05. -/
theorem c7_counterexample :
    (0.05 : ℚ) < |decode_steering (encode_steering (7 / 100)) - 7 / 100| := by
  have h0 : (0 : ℚ) ≤ (7 / 100 + 45) * 10 := by norm_num
  have he : encode_steering (7 / 100) = 450 := by
    rw [encode_steering, pytrunc, if_pos h0, Int.floor_eq_iff]
    constructor <;> norm_num
  rw [he]
  have h2 : decode_steering 450 - 7 / 100 = -(7 / 100) := by norm_num [decode_steering]
  rw [h2, abs_neg, abs_of_nonneg (by norm_num : (0 : ℚ) ≤ 7 / 100)]
  norm_num

/-- Claim C7 (amended): for values in the valid range of each frame kind the
round-trip error of the truncating codec is non-negative and strictly below
0.1 (not 0.05). -/
theorem c7_amended_roundtrip (x : ℚ) :
    (-45 ≤ x → x ≤ 45 →
      0 ≤ x - decode_steering (encode_steering x) ∧
      x - decode_steering (encode_steering x) < 0.1) ∧
    (0 ≤ x → x ≤ 6553.5 →
      0 ≤ x - decode_speed (encode_speed x) ∧
      x - decode_speed (encode_speed x) < 0.1) ∧
    (0 ≤ x → x ≤ 100 →
      0 ≤ x - decode_brake (encode_brake x) ∧
      x - decode_brake (encode_brake x) < 0.1) := by
  refine ⟨fun h1 h2 => ?_, fun h1 h2 => ?_, fun h1 h2 => ?_⟩
  · have h0 : (0 : ℚ) ≤ (x + 45) * 10 := by linarith
    have he : encode_steering x = ⌊(x + 45) * 10⌋ := by
      rw [encode_steering, pytrunc, if_pos h0]
    have hle := Int.floor_le ((x + 45) * 10)
    have hlt := Int.lt_floor_add_one ((x + 45) * 10)
    rw [he, decode_steering]
    constructor <;> [linarith; linarith]
  · have h0 : (0 : ℚ) ≤ x * 10 := by linarith
    have he : encode_speed x = ⌊x * 10⌋ := by
      rw [encode_speed, pytrunc, if_pos h0]
    have hle := Int.floor_le (x * 10)
    have hlt := Int.lt_floor_add_one (x * 10)
    rw [he, decode_speed]
    constructor <;> [linarith; linarith]
  · have h0 : (0 : ℚ) ≤ x * 10 := by linarith
    have he : encode_brake x = ⌊x * 10⌋ := by
      rw [encode_brake, pytrunc, if_pos h0]
    have hle := Int.floor_le (x * 10)
    have hlt := Int.lt_floor_add_one (x * 10)
    rw [he, decode_brake]
    constructor <;> [linarith; linarith]

theorem c7_witness :
    ((-45 : ℚ) ≤ 0.07 ∧ (0.07 : ℚ) ≤ 45) ∧
    (0 ≤ (0.07 : ℚ) - decode_steering (encode_steering 0.07) ∧
      (0.07 : ℚ) - decode_steering (encode_steering 0.07) < 0.1) :=
  ⟨⟨by norm_num, by norm_num⟩,
   (c7_amended_roundtrip 0.07).1 (by norm_num) (by norm_num)⟩

/-- Claim C10: the verifier's Python-truthiness field check rejects any
envelope with `sequence = 0` or `can_id = 0` with reason
"Missing required fields", even if it is otherwise well-formed and
correctly signed. -/
theorem c10_falsy_fields_rejected (hmacF : String → String → String) (now : ℕ)
    (st : VerifierState) (e : Envelope) (h : e.sequence = 0 ∨ e.can_id = 0) :
    (verify_message hmacF now st e).1 = false ∧
    (verify_message hmacF now st e).2.1 = "Missing required fields" := by
  rcases h with h | h <;> constructor <;> simp [verify_message, h]

theorem c10_witness :
    (verify_message (fun _ m => m) 1000 initVerifier
      (sign_message (fun _ m => m) 1000
        ⟨"vehicleA-brake-ecu", "brake_key_v1_secret_2024", 3⟩ 0 "0000000000000000").2).1 =
      false ∧
    (verify_message (fun _ m => m) 1000 initVerifier
      (sign_message (fun _ m => m) 1000
        ⟨"vehicleA-brake-ecu", "brake_key_v1_secret_2024", 3⟩ 0
        "0000000000000000").2).2.1 = "Missing required fields" :=
  c10_falsy_fields_rejected (fun _ m => m) 1000 initVerifier _ (Or.inr rfl)

/-- Claim C3: for an envelope that passes the field, key and freshness
checks but whose sequence is ≤ the verifier's last accepted sequence for its
device, verification returns the replay rejection (state untouched) unless
the sequence undershoots the last accepted one by more than 100, in which
case the per-device counter is re-anchored to the new sequence and
verification proceeds to the signature check. -/
theorem c3_replay_or_reanchor (hmacF : String → String → String) (now : ℕ)
    (st : VerifierState) (e : Envelope) (key : String)
    (hd : e.device_id ≠ "") (ht : e.timestamp ≠ 0) (hs : e.sequence ≠ 0)
    (hc : e.can_id ≠ 0) (hp : e.payload ≠ "") (hg : e.signature ≠ "")
    (hkey : get_device_key e.device_id = some key) (hk : key ≠ "")
    (hfresh : |(now : ℤ) - (e.timestamp : ℤ)| ≤ (TIMESTAMP_WINDOW_MS : ℤ))
    (hle : e.sequence ≤ st.last_sequences e.device_id) :
    (¬ e.sequence + 100 < st.last_sequences e.device_id →
      verify_message hmacF now st e =
        (false, "Sequence replay: " ++ Nat.repr e.sequence ++ " <= " ++
          Nat.repr (st.last_sequences e.device_id), st)) ∧
    (e.sequence + 100 < st.last_sequences e.device_id →
      (verify_message hmacF now st e).2.2.last_sequences e.device_id = e.sequence ∧
      ((verify_message hmacF now st e).1 = true ↔
        e.signature =
          hmacF key (message_data e.device_id e.timestamp e.sequence e.can_id e.payload))) := by
  have hstale := not_lt.mpr hfresh
  constructor
  · intro hgap
    simp [verify_message, hd, ht, hs, hc, hp, hg, hkey, hk, hstale, hle, hgap]
  · intro hgap
    have hV : verify_message hmacF now st e =
        verify_signature_and_accept hmacF now
          ⟨fun d => if d = e.device_id then e.sequence else st.last_sequences d,
           st.message_history⟩ key e := by
      simp [verify_message, hd, ht, hs, hc, hp, hg, hkey, hk, hstale, hle, hgap]
    rw [hV]
    by_cases hsig : e.signature =
        hmacF key (message_data e.device_id e.timestamp e.sequence e.can_id e.payload)
    · constructor
      · simp only [verify_signature_and_accept, if_neg (not_not_intro hsig)]
        simp
      · simp only [verify_signature_and_accept, if_neg (not_not_intro hsig)]
        simp [hsig]
    · constructor
      · simp only [verify_signature_and_accept, if_pos hsig]
        simp
      · simp only [verify_signature_and_accept, if_pos hsig]
        simp [hsig]

/-- A verifier state whose last accepted sequence for `vehicleA-v2v` is
300. -/
def sampleVerifierState : VerifierState :=
  ⟨fun d => if d = "vehicleA-v2v" then 300 else 0, fun _ => []⟩

theorem c3_witness :
    (¬ (100 : ℕ) + 100 < sampleVerifierState.last_sequences "vehicleA-v2v" →
      verify_message (fun _ m => m) 500 sampleVerifierState
        ⟨"vehicleA-v2v", 500, 100, 1, 2, "aabb", "vehicleA-v2v:500:100:2:aabb"⟩ =
        (false, "Sequence replay: " ++ Nat.repr 100 ++ " <= " ++
          Nat.repr (sampleVerifierState.last_sequences "vehicleA-v2v"),
         sampleVerifierState)) ∧
    ((100 : ℕ) + 100 < sampleVerifierState.last_sequences "vehicleA-v2v" →
      (verify_message (fun _ m => m) 500 sampleVerifierState
        ⟨"vehicleA-v2v", 500, 100, 1, 2, "aabb",
          "vehicleA-v2v:500:100:2:aabb"⟩).2.2.last_sequences "vehicleA-v2v" = 100 ∧
      ((verify_message (fun _ m => m) 500 sampleVerifierState
        ⟨"vehicleA-v2v", 500, 100, 1, 2, "aabb", "vehicleA-v2v:500:100:2:aabb"⟩).1 = true ↔
        "vehicleA-v2v:500:100:2:aabb" =
          message_data "vehicleA-v2v" 500 100 2 "aabb")) :=
  c3_replay_or_reanchor (fun _ m => m) 500 sampleVerifierState
    ⟨"vehicleA-v2v", 500, 100, 1, 2, "aabb", "vehicleA-v2v:500:100:2:aabb"⟩
    "v2v_key_v1_secret_2024" (by decide) (by decide) (by decide) (by decide) (by decide)
    (by decide) rfl (by decide) (by decide) (by decide)

/-- Claim C9: verification is not atomic on error.  An envelope whose
sequence undershoots the device's last accepted sequence by more than 100
but whose HMAC signature is invalid is rejected, yet the per-device counter
has already been re-anchored to its (lower) sequence, so a subsequent old
envelope with a sequence above that lowered value (and at or below the old
last accepted sequence) passes the replay check and verifies. -/
theorem c9_reanchor_despite_bad_signature (hmacF : String → String → String)
    (now1 now2 : ℕ) (st : VerifierState) (e1 e2 : Envelope) (key : String)
    (hd1 : e1.device_id ≠ "") (ht1 : e1.timestamp ≠ 0) (hs1 : e1.sequence ≠ 0)
    (hc1 : e1.can_id ≠ 0) (hp1 : e1.payload ≠ "") (hg1 : e1.signature ≠ "")
    (hkey : get_device_key e1.device_id = some key) (hk : key ≠ "")
    (hfresh1 : |(now1 : ℤ) - (e1.timestamp : ℤ)| ≤ (TIMESTAMP_WINDOW_MS : ℤ))
    (hgap : e1.sequence + 100 < st.last_sequences e1.device_id)
    (hbad : e1.signature ≠
      hmacF key (message_data e1.device_id e1.timestamp e1.sequence e1.can_id e1.payload))
    (hdev : e2.device_id = e1.device_id)
    (ht2 : e2.timestamp ≠ 0) (hs2 : e2.sequence ≠ 0) (hc2 : e2.can_id ≠ 0)
    (hp2 : e2.payload ≠ "") (hg2 : e2.signature ≠ "")
    (hfresh2 : |(now2 : ℤ) - (e2.timestamp : ℤ)| ≤ (TIMESTAMP_WINDOW_MS : ℤ))
    (hold : e2.sequence ≤ st.last_sequences e1.device_id)
    (habove : e1.sequence < e2.sequence)
    (hsig2 : e2.signature =
      hmacF key (message_data e2.device_id e2.timestamp e2.sequence e2.can_id e2.payload)) :
    (verify_message hmacF now1 st e1).1 = false ∧
    (verify_message hmacF now1 st e1).2.2.last_sequences e1.device_id = e1.sequence ∧
    (verify_message hmacF now2 (verify_message hmacF now1 st e1).2.2 e2).1 = true := by
  have hstale1 := not_lt.mpr hfresh1
  have hstale2 := not_lt.mpr hfresh2
  have hle1 : e1.sequence ≤ st.last_sequences e1.device_id := by omega
  have hR1 : verify_message hmacF now1 st e1 =
      (false, "Invalid HMAC signature",
        ⟨fun d => if d = e1.device_id then e1.sequence else st.last_sequences d,
         st.message_history⟩) := by
    simp [verify_message, verify_signature_and_accept, hd1, ht1, hs1, hc1, hp1, hg1,
      hkey, hk, hstale1, hle1, hgap, hbad]
  have hd2 : e2.device_id ≠ "" := by rw [hdev]; exact hd1
  have hnle : ¬ e2.sequence ≤ e1.sequence := by omega
  refine ⟨by rw [hR1], by rw [hR1]; simp, ?_⟩
  rw [hR1]
  have hV2 : verify_message hmacF now2
      ⟨fun d => if d = e1.device_id then e1.sequence else st.last_sequences d,
       st.message_history⟩ e2 =
      verify_signature_and_accept hmacF now2
        ⟨fun d => if d = e1.device_id then e1.sequence else st.last_sequences d,
         st.message_history⟩ key e2 := by
    simp [verify_message, hd1, hd2, ht2, hs2, hc2, hp2, hg2, hdev, hkey, hk, hstale2, hnle]
  rw [hV2]
  simp only [verify_signature_and_accept, if_neg (not_not_intro hsig2)]

theorem c9_witness :
    (verify_message (fun _ m => m) 500 sampleVerifierState
      ⟨"vehicleA-v2v", 500, 100, 1, 2, "aabb", "bogus"⟩).1 = false ∧
    (verify_message (fun _ m => m) 500 sampleVerifierState
      ⟨"vehicleA-v2v", 500, 100, 1, 2, "aabb", "bogus"⟩).2.2.last_sequences
        "vehicleA-v2v" = 100 ∧
    (verify_message (fun _ m => m) 600
      (verify_message (fun _ m => m) 500 sampleVerifierState
        ⟨"vehicleA-v2v", 500, 100, 1, 2, "aabb", "bogus"⟩).2.2
      ⟨"vehicleA-v2v", 600, 150, 1, 2, "ccdd", "vehicleA-v2v:600:150:2:ccdd"⟩).1 = true :=
  c9_reanchor_despite_bad_signature (fun _ m => m) 500 600 sampleVerifierState
    ⟨"vehicleA-v2v", 500, 100, 1, 2, "aabb", "bogus"⟩
    ⟨"vehicleA-v2v", 600, 150, 1, 2, "ccdd", "vehicleA-v2v:600:150:2:ccdd"⟩
    "v2v_key_v1_secret_2024" (by decide) (by decide) (by decide) (by decide) (by decide)
    (by decide) rfl (by decide) (by decide) (by decide) (by decide) rfl (by decide)
    (by decide) (by decide) (by decide) (by decide) (by decide) (by decide) (by decide)
    rfl

/-! ### Recovery-timer trace lemmas for the IPS state machine -/

/-- Trace invariant: a non-zero recovery timer was set at a processed update
with trust ≥ 0.8 whose time equals the timer value, and every update
processed since then also had trust ≥ 0.8. -/
def RecoveryInv (s : IPSState) (updates : List (ℚ × ℚ)) : Prop :=
  s.recovery_timer ≠ 0 →
    ∃ pre t0 post, updates = pre ++ (t0, s.recovery_timer) :: post ∧
      0.8 ≤ t0 ∧ ∀ v ∈ post, 0.8 ≤ v.1

theorem update_policy_enabled (s : IPSState) (t n : ℚ) :
    (update_policy s t n).enabled = s.enabled := by
  simp only [update_policy]
  split_ifs <;> rfl

theorem recoveryInv_step (s : IPSState) (us : List (ℚ × ℚ)) (u : ℚ × ℚ)
    (hen : s.enabled = true) (hinv : RecoveryInv s us) :
    RecoveryInv (update_policy s u.1 u.2) (us ++ [u]) := by
  intro hnz
  have henf : ¬ s.enabled = false := by rw [hen]; exact Bool.true_eq_false ▸ (by simp)
  by_cases htr : u.1 < 0.8
  · exfalso
    apply hnz
    simp [update_policy, henf, htr]
  · push_neg at htr
    by_cases hmode : s.mode = IPSMode.off
    · have hu : update_policy s u.1 u.2 = s := by
        simp [update_policy, henf, not_lt.mpr htr, hmode]
      rw [hu] at hnz ⊢
      obtain ⟨pre, t0, post, hsplit, ht0, hall⟩ := hinv hnz
      refine ⟨pre, t0, post ++ [u], by rw [hsplit]; simp, ht0, ?_⟩
      intro v hv
      rcases List.mem_append.mp hv with h | h
      · exact hall v h
      · rw [List.mem_singleton.mp h]
        exact htr
    · by_cases htimer : s.recovery_timer = 0
      · have hu : update_policy s u.1 u.2 = { s with recovery_timer := u.2 } := by
          simp [update_policy, henf, not_lt.mpr htr, hmode, htimer]
        rw [hu]
        refine ⟨us, u.1, [], by simp, htr, by simp⟩
      · by_cases helap : 5 < u.2 - s.recovery_timer
        · exfalso
          apply hnz
          simp [update_policy, henf, not_lt.mpr htr, hmode, htimer, helap]
        · have hu : update_policy s u.1 u.2 = s := by
            simp [update_policy, henf, not_lt.mpr htr, hmode, htimer, helap]
          rw [hu] at hnz ⊢
          obtain ⟨pre, t0, post, hsplit, ht0, hall⟩ := hinv hnz
          refine ⟨pre, t0, post ++ [u], by rw [hsplit]; simp, ht0, ?_⟩
          intro v hv
          rcases List.mem_append.mp hv with h | h
          · exact hall v h
          · rw [List.mem_singleton.mp h]
            exact htr

theorem run_policy_inv (s0 : IPSState) (hen : s0.enabled = true)
    (h0 : s0.recovery_timer = 0) :
    ∀ us, (run_policy s0 us).enabled = true ∧ RecoveryInv (run_policy s0 us) us := by
  intro us
  induction us using List.reverseRecOn with
  | nil => exact ⟨hen, fun h => absurd h0 h⟩
  | append_singleton us u ih =>
    have hrun : run_policy s0 (us ++ [u]) = update_policy (run_policy s0 us) u.1 u.2 := by
      simp [run_policy, List.foldl_append]
    rw [hrun]
    exact ⟨by rw [update_policy_enabled]; exact ih.1, recoveryInv_step _ _ _ ih.1 ih.2⟩

theorem update_policy_off_step (s : IPSState) (t n : ℚ)
    (hmode : s.mode ≠ IPSMode.off) (hoff : (update_policy s t n).mode = IPSMode.off) :
    0.8 ≤ t ∧ s.recovery_timer ≠ 0 ∧ 5 < n - s.recovery_timer := by
  cases hen : s.enabled with
  | false =>
    exfalso
    apply hmode
    rw [← hoff]
    simp [update_policy, hen]
  | true =>
    have henf : ¬ s.enabled = false := by simp [hen]
    by_cases htr : t < 0.8
    · exfalso
      have : (update_policy s t n).mode =
          (if 0.7 ≤ t then IPSMode.soft_limit
           else if 0.5 ≤ t then IPSMode.safe_mode else IPSMode.critical) := by
        simp [update_policy, henf, htr]
      rw [this] at hoff
      split_ifs at hoff
    · by_cases htimer : s.recovery_timer = 0
      · exfalso
        apply hmode
        rw [← hoff]
        simp [update_policy, henf, htr, hmode, htimer]
      · by_cases helap : 5 < n - s.recovery_timer
        · exact ⟨not_lt.mp htr, htimer, helap⟩
        · exfalso
          apply hmode
          rw [← hoff]
          simp [update_policy, henf, htr, hmode, htimer, helap]

/-- Claim C5: the IPS policy state machine never moves from a non-OFF mode
back to OFF unless the final update has trust ≥ 0.8 and, since the update
that started the recovery timer (itself with trust ≥ 0.8), every processed
update had trust ≥ 0.8 and more than 5 seconds have elapsed; and any update
with trust < 0.8 resets the recovery timer to zero. -/
theorem c5_ips_off_requires_sustained_trust :
    (∀ (s0 : IPSState) (us : List (ℚ × ℚ)) (u : ℚ × ℚ),
      s0.enabled = true → s0.recovery_timer = 0 →
      (run_policy s0 us).mode ≠ IPSMode.off →
      (run_policy s0 (us ++ [u])).mode = IPSMode.off →
      0.8 ≤ u.1 ∧
      ∃ pre t0 r post, us = pre ++ (t0, r) :: post ∧ 0.8 ≤ t0 ∧
        (∀ v ∈ post, 0.8 ≤ v.1) ∧ 5 < u.2 - r) ∧
    (∀ (s : IPSState) (trust_score now : ℚ), s.enabled = true → trust_score < 0.8 →
      (update_policy s trust_score now).recovery_timer = 0) := by
  constructor
  · intro s0 us u hen h0 hpre hoff
    have hrun : run_policy s0 (us ++ [u]) = update_policy (run_policy s0 us) u.1 u.2 := by
      simp [run_policy, List.foldl_append]
    rw [hrun] at hoff
    obtain ⟨hen2, hinv⟩ := run_policy_inv s0 hen h0 us
    obtain ⟨htr, hnz, helap⟩ := update_policy_off_step _ _ _ hpre hoff
    obtain ⟨pre, t0, post, hsplit, ht0, hall⟩ := hinv hnz
    exact ⟨htr, pre, t0, (run_policy s0 us).recovery_timer, post, hsplit, ht0, hall, helap⟩
  · intro s trust_score now hen htr
    have henf : ¬ s.enabled = false := by simp [hen]
    simp [update_policy, henf, htr]

theorem c5_witness :
    ((0.8 : ℚ) ≤ 0.9 ∧
      ∃ pre t0 r post,
        [((0.9 : ℚ), (10 : ℚ))] = pre ++ (t0, r) :: post ∧ (0.8 : ℚ) ≤ t0 ∧
        (∀ v ∈ post, (0.8 : ℚ) ≤ v.1) ∧ (5 : ℚ) < 16 - r) ∧
    (update_policy ⟨true, .critical, 30, 0, 0⟩ 0.5 3).recovery_timer = 0 :=
  ⟨c5_ips_off_requires_sustained_trust.1 ⟨true, .critical, 30, 0, 0⟩
      [(0.9, 10)] (0.9, 16) rfl rfl
      (by norm_num +decide [run_policy, update_policy])
      (by norm_num +decide [run_policy, update_policy]),
   c5_ips_off_requires_sustained_trust.2 ⟨true, .critical, 30, 0, 0⟩ 0.5 3 rfl
     (by norm_num)⟩

/-- If the envelope's stored signature differs from the HMAC recomputed by
the verifier (for whatever key the table yields for its device id),
`verify_message` returns false on every path. -/
theorem verify_false_of_signature_mismatch (hmacF : String → String → String)
    (now : ℕ) (st : VerifierState) (e : Envelope)
    (hsig : ∀ key, get_device_key e.device_id = some key →
      e.signature ≠
        hmacF key (message_data e.device_id e.timestamp e.sequence e.can_id e.payload)) :
    (verify_message hmacF now st e).1 = false := by
  by_cases h1 : e.device_id = "" ∨ e.timestamp = 0 ∨ e.sequence = 0 ∨ e.can_id = 0 ∨
      e.payload = "" ∨ e.signature = ""
  · simp [verify_message, h1]
  · rcases hk : get_device_key e.device_id with _ | key
    · simp [verify_message, h1, hk]
    · have hs := hsig key hk
      by_cases h2 : key = ""
      · simp [verify_message, h1, hk, h2]
      · by_cases h3 : (TIMESTAMP_WINDOW_MS : ℤ) < |(now : ℤ) - (e.timestamp : ℤ)|
        · simp [verify_message, h1, hk, h2, h3]
        · by_cases h4 : e.sequence ≤ st.last_sequences e.device_id
          · by_cases h5 : e.sequence + 100 < st.last_sequences e.device_id
            · simp [verify_message, verify_signature_and_accept, h1, hk, h2, h3, h4, h5,
                hs]
            · simp [verify_message, h1, hk, h2, h3, h4, h5]
          · simp [verify_message, verify_signature_and_accept, h1, hk, h2, h3, h4, hs]

/-- Claim C2 (amended): for a device with a configured key, the verifier
accepts a fresh signer-produced envelope provided all envelope fields are
non-falsy in Python's sense — in particular the frame id is nonzero — and
altering the payload, timestamp, sequence or device id of such an envelope
makes verification return false (assuming the HMAC is collision-free on its
message input). -/
theorem c2_amended_sign_verify (hmacF : String → String → String)
    (Hinj : ∀ k1 m1 k2 m2, hmacF k1 m1 = hmacF k2 m2 → m1 = m2)
    (s : MessageSigner) (can_id : ℕ) (payload : String) (now_s now_v : ℕ)
    (st : VerifierState)
    (hkey : get_device_key s.device_id = some s.key) (hkne : s.key ≠ "")
    (hcid : can_id ≠ 0) (hp : payload ≠ "") (hts : now_s ≠ 0)
    (hsne : hmacF s.key (message_data s.device_id now_s (s.sequence + 1) can_id payload) ≠ "")
    (hfresh : |(now_v : ℤ) - (now_s : ℤ)| ≤ (TIMESTAMP_WINDOW_MS : ℤ))
    (hseq : st.last_sequences s.device_id < s.sequence + 1) :
    ((verify_message hmacF now_v st (sign_message hmacF now_s s can_id payload).2).1 =
      true) ∧
    (∀ p2, p2 ≠ payload →
      (verify_message hmacF now_v st
        { (sign_message hmacF now_s s can_id payload).2 with payload := p2 }).1 = false) ∧
    (∀ t2, t2 ≠ now_s →
      (verify_message hmacF now_v st
        { (sign_message hmacF now_s s can_id payload).2 with timestamp := t2 }).1 =
        false) ∧
    (∀ q2, q2 ≠ s.sequence + 1 →
      (verify_message hmacF now_v st
        { (sign_message hmacF now_s s can_id payload).2 with sequence := q2 }).1 =
        false) ∧
    (∀ d2, d2 ≠ s.device_id →
      (verify_message hmacF now_v st
        { (sign_message hmacF now_s s can_id payload).2 with device_id := d2 }).1 =
        false) := by
  have hempty : get_device_key "" = none := by decide
  have hd : s.device_id ≠ "" := by
    intro h
    rw [h, hempty] at hkey
    exact Option.noConfusion hkey
  have hE : (sign_message hmacF now_s s can_id payload).2 =
      ⟨s.device_id, now_s, s.sequence + 1, 1, can_id, payload,
        hmacF s.key (message_data s.device_id now_s (s.sequence + 1) can_id payload)⟩ :=
    rfl
  refine ⟨?_, ?_, ?_, ?_, ?_⟩
  · rw [hE]
    have hnle : ¬ (s.sequence + 1 ≤ st.last_sequences s.device_id) := not_le.mpr hseq
    simp [verify_message, verify_signature_and_accept, hd, hts, hcid, hp, hsne, hkey,
      hkne, not_lt.mpr hfresh, hnle]
  · intro p2 hp2
    rw [hE]
    apply verify_false_of_signature_mismatch
    intro key hk2 hcontra
    rw [hkey] at hk2
    have hmd := Hinj _ _ _ _ hcontra
    exact hp2 (message_data_inj_payload hmd).symm
  · intro t2 ht2
    rw [hE]
    apply verify_false_of_signature_mismatch
    intro key hk2 hcontra
    rw [hkey] at hk2
    have hmd := Hinj _ _ _ _ hcontra
    exact ht2 (message_data_inj_timestamp hmd).symm
  · intro q2 hq2
    rw [hE]
    apply verify_false_of_signature_mismatch
    intro key hk2 hcontra
    rw [hkey] at hk2
    have hmd := Hinj _ _ _ _ hcontra
    exact hq2 (message_data_inj_sequence hmd).symm
  · intro d2 hd2
    rw [hE]
    apply verify_false_of_signature_mismatch
    intro key hk2 hcontra
    have hmd := Hinj _ _ _ _ hcontra
    exact hd2 (message_data_inj_device hmd).symm

/-- Claim C2 (counterexample): a fresh envelope produced by the properly
keyed speed ECU signer (sequence above the verifier's last accepted,
timestamp inside the 5 s window) is nevertheless rejected when the frame id
is 0, with reason "Missing required fields". -/
theorem c2_counterexample :
    get_device_key "vehicleA-speed-ecu" = some "speed_key_v1_secret_2024" ∧
    |(1000 : ℤ) - (1000 : ℤ)| ≤ (TIMESTAMP_WINDOW_MS : ℤ) ∧
    initVerifier.last_sequences "vehicleA-speed-ecu" < 6 ∧
    (verify_message (fun _ m => m) 1000 initVerifier
      (sign_message (fun _ m => m) 1000
        ⟨"vehicleA-speed-ecu", "speed_key_v1_secret_2024", 5⟩ 0
        "0bb8000000000000").2).1 = false ∧
    (verify_message (fun _ m => m) 1000 initVerifier
      (sign_message (fun _ m => m) 1000
        ⟨"vehicleA-speed-ecu", "speed_key_v1_secret_2024", 5⟩ 0
        "0bb8000000000000").2).2.1 = "Missing required fields" := by
  refine ⟨rfl, by decide, by decide, by decide, by decide⟩

theorem c2_witness :
    ((verify_message (fun _ m => m) 1200 initVerifier
      (sign_message (fun _ m => m) 1000
        ⟨"vehicleA-speed-ecu", "speed_key_v1_secret_2024", 5⟩ 304
        "0bb8000000000000").2).1 = true) ∧
    (∀ p2, p2 ≠ "0bb8000000000000" →
      (verify_message (fun _ m => m) 1200 initVerifier
        { (sign_message (fun _ m => m) 1000
            ⟨"vehicleA-speed-ecu", "speed_key_v1_secret_2024", 5⟩ 304
            "0bb8000000000000").2 with payload := p2 }).1 = false) ∧
    (∀ t2, t2 ≠ 1000 →
      (verify_message (fun _ m => m) 1200 initVerifier
        { (sign_message (fun _ m => m) 1000
            ⟨"vehicleA-speed-ecu", "speed_key_v1_secret_2024", 5⟩ 304
            "0bb8000000000000").2 with timestamp := t2 }).1 = false) ∧
    (∀ q2, q2 ≠ 6 →
      (verify_message (fun _ m => m) 1200 initVerifier
        { (sign_message (fun _ m => m) 1000
            ⟨"vehicleA-speed-ecu", "speed_key_v1_secret_2024", 5⟩ 304
            "0bb8000000000000").2 with sequence := q2 }).1 = false) ∧
    (∀ d2, d2 ≠ "vehicleA-speed-ecu" →
      (verify_message (fun _ m => m) 1200 initVerifier
        { (sign_message (fun _ m => m) 1000
            ⟨"vehicleA-speed-ecu", "speed_key_v1_secret_2024", 5⟩ 304
            "0bb8000000000000").2 with device_id := d2 }).1 = false) :=
  c2_amended_sign_verify (fun _ m => m) (fun _ _ _ _ h => h)
    ⟨"vehicleA-speed-ecu", "speed_key_v1_secret_2024", 5⟩ 304 "0bb8000000000000" 1000 1200
    initVerifier rfl (by decide) (by decide) (by decide) (by decide) (by decide)
    (by decide) (by decide)

end AutocanGuard
